import Mathlib

/-!
# The birth-tagged atomic pointer cell `biptr` of Interval-Based Reclamation

A shallow embedding of `src/trackers/biptr.hpp` and theorems about it.

The embedding is sequential: one thread runs the operations of the cell and
no other thread writes to it in between, so every atomic access acts on the
value left by the previous one and memory orders play no role.  Pointers and
64-bit words are natural numbers; the places where the source computes in
`uint64_t` carry an explicit reduction modulo `2 ^ 64`.

The loops of the source (`while(true)` in `CAS` and in
`protect_and_fetch_ptr`, `while(!compare_exchange_strong)` in `store`) are
embedded with a fuel argument: `none` means that the fuel ran out before the
loop was left.
-/

namespace IBR

/-! ## Machine words and atomic accesses -/

/-- Reduction of a natural number to a `uint64_t`. -/
def u64 (n : Nat) : Nat := n % 2 ^ 64

/-- The record `FatPtr<T>` (biptr.hpp, lines 23-28): a pointer word followed
by a 64-bit tag, 16 bytes in all. -/
structure FatPtr where
  ptr : Nat
  tag : Nat
deriving DecidableEq, Repr

/-- The call `compare_exchange_strong(expected, desired)` on an atomic object
holding `cur`: on a match the object takes `desired`, otherwise `expected`
takes the value of the object.  The result is the returned flag, the object
after the call and `expected` after the call. -/
def compare_exchange_strong {α : Type} [DecidableEq α] (cur expected desired : α) :
    Bool × α × α :=
  if cur = expected then (true, desired, expected) else (false, cur, cur)

/-- The call `compare_exchange_weak(expected, desired)`: as the strong form,
but when `spurious` is set an attempt that would have matched fails and leaves
the object alone. -/
def compare_exchange_weak {α : Type} [DecidableEq α] (spurious : Bool)
    (cur expected desired : α) : Bool × α × α :=
  if cur = expected then
    if spurious then (false, cur, cur) else (true, desired, expected)
  else (false, cur, cur)

/-- The call `fetch_add(d)` on an atomic `uint64_t` holding `cur`: the value
returned (the old one) and the object after the call. -/
def fetch_add (cur d : Nat) : Nat × Nat := (cur, u64 (cur + d))

/-! ## The range tracker -/

/-- Modelled from the spec: the enumeration behind `range_tracker->type` is
declared outside biptr.hpp; the spec (section 6) gives the strategy tag as
one of `LF`, `FAA`, `WCAS`. -/
inductive TrackerType where
  | LF
  | FAA
  | WCAS
deriving DecidableEq, Repr

/-- Modelled from the spec: the class `RangeTracker<T>` is declared outside
biptr.hpp.  The cell uses its strategy tag `type`, the static `read_birth`
(a `uint64_t` read from the pointee), and the reader-side calls
`update_reserve` and `validate`, which act on a tracker state `σ` that the
cell never inspects. -/
structure RangeTracker (σ : Type) where
  type : TrackerType
  read_birth : Nat → Nat
  update_reserve : Nat → σ → σ
  validate : Nat → σ → Bool × σ

/-- The same tracker under another strategy tag. -/
def RangeTracker.withType {σ : Type} (rt : RangeTracker σ) (t : TrackerType) :
    RangeTracker σ :=
  RangeTracker.mk t rt.read_birth rt.update_reserve rt.validate

/-! ## The cell -/

/-- The class `biptr<T>`: its storage is the 16-byte `fat_ptr`; the members
`p` and `birth_before` are pointers to the first and to the second word of
`fat_ptr` (constructor, lines 41-42). -/
structure biptr where
  fat_ptr : FatPtr
deriving DecidableEq, Repr

namespace biptr

variable {σ : Type}

/-- Read through `birth_before`: the second word of `fat_ptr`. -/
def birth_before (c : biptr) : Nat := c.fat_ptr.tag

/-- Read through `p`: the first word of `fat_ptr`. -/
def p (c : biptr) : Nat := c.fat_ptr.ptr

/-- Write through `birth_before`. -/
def set_birth_before (c : biptr) (v : Nat) : biptr := biptr.mk (FatPtr.mk c.fat_ptr.ptr v)

/-- Write through `p`. -/
def set_p (c : biptr) (v : Nat) : biptr := biptr.mk (FatPtr.mk v c.fat_ptr.tag)

/-- The method `birth()` (lines 64-68). -/
def birth (c : biptr) : Nat := c.birth_before

/-- The method `ptr()` (lines 69-73). -/
def ptr (c : biptr) : Nat := c.p

/-- The method `load()` (lines 74-76). -/
def load (c : biptr) : Nat := c.ptr

/-- The method `get_birth_epoch(obj)` (lines 77-80): the two low bits of the
pointer are cleared, a null result has birth epoch 0, any other one is looked
up with `read_birth`, which returns a `uint64_t`. -/
def get_birth_epoch (rt : RangeTracker σ) (obj : Nat) : Nat :=
  let ptr := obj &&& 0xfffffffffffffffc
  if ptr ≠ 0 then u64 (rt.read_birth ptr) else 0

/-- The constructor `biptr<T>(T* obj)` (lines 44-49). -/
def new (rt : RangeTracker σ) (obj : Nat) : biptr :=
  biptr.mk (FatPtr.mk obj (get_birth_epoch rt obj))

/-- The constructor `biptr<T>()` (lines 40-43): it writes nothing into
`fat_ptr`, whose content is the one given by the default constructor
`FatPtr()` (line 26), a null pointer and the tag 0. -/
def init : biptr := biptr.mk (FatPtr.mk 0 0)

/-- The copy constructor `biptr<T>(biptr<T>& other)` (lines 50-54). -/
def copy (other : biptr) : biptr := biptr.mk (FatPtr.mk other.ptr other.birth)

/-! ## The retry loops -/

/-- What a retry loop leaves behind: the content of the atomic object when the
loop is left, the number of compare-exchange calls made, and how many of them
wrote. -/
structure LoopResult (α : Type) where
  value : α
  attempts : Nat
  writes : Nat
deriving DecidableEq, Repr

/-- One more failed compare-exchange call in front of a loop result. -/
def LoopResult.retried {α : Type} (r : LoopResult α) : LoopResult α :=
  LoopResult.mk r.value (r.attempts + 1) r.writes

/-- The `LF` loop of `CAS` (lines 88-97) on the birth word: while the last read
value `e_ori` is below `birth_epoch`, try `compare_exchange_weak(e_ori,
birth_epoch)`; a success or `e_ori >= birth_epoch` leaves the loop.  The first
`spur` matching attempts fail spuriously. -/
def CAS_LF_loop (birth_epoch : Nat) : Nat → Nat → Nat → Nat → Option (LoopResult Nat)
  | 0, _, _, _ => none
  | fuel + 1, spur, birth_word, e_ori =>
    if e_ori < birth_epoch then
      match compare_exchange_weak (decide (0 < spur)) birth_word e_ori birth_epoch with
      | (true, w, _) => some (LoopResult.mk w 1 1)
      | (false, w, e) => (CAS_LF_loop birth_epoch fuel (spur - 1) w e).map LoopResult.retried
    else some (LoopResult.mk birth_word 0 0)

/-- The loop `while(!fat_ptr.compare_exchange_strong(old_value, new_value));`
of `store` (line 138) and of copy-assignment (line 154). -/
def WCAS_loop (new_value : FatPtr) : Nat → FatPtr → FatPtr → Option (LoopResult FatPtr)
  | 0, _, _ => none
  | fuel + 1, word, old_value =>
    match compare_exchange_strong word old_value new_value with
    | (true, w, _) => some (LoopResult.mk w 1 1)
    | (false, w, o) => (WCAS_loop new_value fuel w o).map LoopResult.retried

/-! ## Compare-and-swap, store, assignment -/

/-- What `CAS(ori, obj)` leaves behind: the returned flag, the caller's
variable `ori` (passed by reference) and the cell. -/
structure CASResult where
  success : Bool
  ori : Nat
  cell : biptr
deriving DecidableEq, Repr

/-- The `FAA` case of `CAS` (lines 100-102) on the birth word: `e_ori` is the
value read from the birth word at line 84 and `birth_word` is its content when
the `fetch_add` runs; the result is the birth word after the case. -/
def CAS_FAA (birth_epoch birth_word e_ori : Nat) : Nat :=
  if e_ori < birth_epoch then (fetch_add birth_word (birth_epoch - e_ori)).2 else birth_word

/-- The birth-word part of the non-`WCAS` branch of `CAS` (lines 84-106): the
switch on the strategy tag, giving the birth word after it.  The last case is
the `default` of the switch, which leaves the birth word alone; `CAS` does not
reach it, being there only when the tag is not `WCAS`. -/
def CAS_bump (rt : RangeTracker σ) (fuel spur : Nat) (c : biptr) (obj : Nat) : Option Nat :=
  let e_ori := c.birth_before
  let birth_epoch := get_birth_epoch rt obj
  match rt.type with
  | TrackerType.LF =>
    (CAS_LF_loop birth_epoch fuel spur c.birth_before e_ori).map LoopResult.value
  | TrackerType.FAA =>
    if e_ori < birth_epoch then some (fetch_add c.birth_before (birth_epoch - e_ori)).2
    else some c.birth_before
  | TrackerType.WCAS => some c.birth_before

/-- The method `CAS(ori, obj, morder)` (lines 82-114). -/
def CAS (rt : RangeTracker σ) (fuel spur : Nat) (c : biptr) (ori obj : Nat) :
    Option CASResult :=
  if rt.type ≠ TrackerType.WCAS then
    match CAS_bump rt fuel spur c obj with
    | none => none
    | some w =>
      let c1 := c.set_birth_before w
      match compare_exchange_strong c1.p ori obj with
      | (ok, pw, ori1) => some (CASResult.mk ok ori1 (c1.set_p pw))
  else
    let old_value := FatPtr.mk ori c.birth_before
    let new_value := FatPtr.mk obj (get_birth_epoch rt obj)
    match compare_exchange_strong c.fat_ptr old_value new_value with
    | (ok, w, _) => some (CASResult.mk ok ori (biptr.mk w))

/-- The method `store(obj)` (lines 131-141). -/
def store (rt : RangeTracker σ) (fuel : Nat) (c : biptr) (obj : Nat) : Option biptr :=
  if rt.type ≠ TrackerType.WCAS then
    let c1 := c.set_birth_before (get_birth_epoch rt obj)
    some (c1.set_p obj)
  else
    let old_value := FatPtr.mk c.p c.birth_before
    let new_value := FatPtr.mk obj (get_birth_epoch rt obj)
    (WCAS_loop new_value fuel c.fat_ptr old_value).map fun r => biptr.mk r.value

/-- The assignment `operator=(T* obj)` (lines 159-161). -/
def assign_ptr (rt : RangeTracker σ) (fuel : Nat) (c : biptr) (obj : Nat) : Option biptr :=
  store rt fuel c obj

/-- The copy assignment `operator=(const biptr& other)` (lines 145-158) on a
memory of cells indexed by address: `this` and `other` are the addresses of the
two cells, compared by the guard `this != &other`. -/
def assign (rt : RangeTracker σ) (fuel : Nat) (mem : Nat → biptr) (this other : Nat) :
    Option (Nat → biptr) :=
  if this ≠ other then
    if rt.type ≠ TrackerType.WCAS then
      let c1 := (mem this).set_birth_before (mem other).birth
      some (Function.update mem this (c1.set_p (mem other).ptr))
    else
      let old_value := FatPtr.mk (mem this).p (mem this).birth_before
      let new_value := FatPtr.mk (mem other).ptr (mem other).birth
      (WCAS_loop new_value fuel (mem this).fat_ptr old_value).map
        fun r => Function.update mem this (biptr.mk r.value)
  else some mem

/-! ## Protected dereference -/

/-- A call made to the tracker by the read protocol. -/
inductive TrackerCall where
  | update_reserve (b : Nat)
  | validate (b : Nat)
deriving DecidableEq, Repr

/-- What `protect_and_fetch_ptr` leaves behind: the returned pointer, the cell,
the tracker state, the number of loop iterations run and the calls made to the
tracker, in order. -/
structure ProtectResult (σ : Type) where
  ret : Nat
  cell : biptr
  tracker : σ
  iterations : Nat
  calls : List TrackerCall

/-- The method `protect_and_fetch_ptr()` (lines 120-129): reserve `birth()`,
read the pointer, validate `birth()` (read again), return the pointer on
success and start over otherwise. -/
def protect_and_fetch_ptr (rt : RangeTracker σ) : Nat → biptr → σ → Option (ProtectResult σ)
  | 0, _, _ => none
  | fuel + 1, c, s =>
    let b1 := c.birth
    let s1 := rt.update_reserve b1 s
    let ret := c.ptr
    let b2 := c.birth
    match rt.validate b2 s1 with
    | (true, s2) =>
      some (ProtectResult.mk ret c s2 1 [TrackerCall.update_reserve b1, TrackerCall.validate b2])
    | (false, s2) =>
      (protect_and_fetch_ptr rt fuel c s2).map fun r =>
        ProtectResult.mk r.ret r.cell r.tracker (r.iterations + 1)
          (TrackerCall.update_reserve b1 :: TrackerCall.validate b2 :: r.calls)

/-! ## Comparisons and conversion -/

/-- What an observation of the cell leaves behind: the value returned, the
cell, the tracker state and the calls made to the tracker, in order. -/
structure Observed (σ : Type) where
  value : Bool
  cell : biptr
  tracker : σ
  calls : List TrackerCall

/-- The comparison `operator==(void* obj)` (lines 162-164). -/
def operator_eq (c : biptr) (s : σ) (obj : Nat) : Observed σ :=
  Observed.mk (decide (c.ptr = obj)) c s []

/-- The comparison `operator!=(void* obj)` (lines 165-167). -/
def operator_ne (c : biptr) (s : σ) (obj : Nat) : Observed σ :=
  Observed.mk (decide (c.ptr ≠ obj)) c s []

/-- The conversion `explicit operator bool()` (lines 174-176). -/
def operator_bool (c : biptr) (s : σ) : Observed σ :=
  Observed.mk (decide (c.ptr ≠ 0)) c s []

end biptr

/-! ## Sequences of operations -/

/-- A write operation on a cell with its arguments; `CAS` carries the value of
the caller's variable `ori` at the call. -/
inductive Op where
  | store (obj : Nat)
  | CAS (ori obj : Nat)
deriving DecidableEq, Repr

/-- The observable outcome of one operation: the flag returned by `CAS` (none
for `store`) and the cell after the operation. -/
structure Outcome where
  result : Option Bool
  cell : biptr
deriving DecidableEq, Repr

/-- One operation on the cell `c`; `spur` is the number of spurious failures
met by the weak compare-exchange during it. -/
def Op.exec {σ : Type} (rt : RangeTracker σ) (fuel spur : Nat) (c : biptr) : Op → Option Outcome
  | Op.store obj => (biptr.store rt fuel c obj).map fun c1 => Outcome.mk none c1
  | Op.CAS ori obj =>
    (biptr.CAS rt fuel spur c ori obj).map fun r => Outcome.mk (some r.success) r.cell

/-- The operations of a list run one after the other on a cell, each on the
cell left by the one before; `spur i` is the number of spurious failures met
during the operation at position `i`.  The result lists the outcome of every
operation, in order. -/
def run {σ : Type} (rt : RangeTracker σ) (fuel : Nat) :
    (Nat → Nat) → biptr → List Op → Option (List Outcome)
  | _, _, [] => some []
  | spur, c, op :: ops =>
    match op.exec rt fuel (spur 0) c with
    | none => none
    | some o => (run rt fuel (fun i => spur (i + 1)) o.cell ops).map fun os => o :: os

/-- The cell after a run that started from `c`. -/
def finalCell (c : biptr) (os : List Outcome) : biptr :=
  (os.getLast?.map Outcome.cell).getD c

/-- The flags returned by the `CAS` operations of a run, in order. -/
def casResults (os : List Outcome) : List Bool :=
  os.filterMap Outcome.result

/-! ## The read protocol seen from the tracker -/

/-- The tracker state at the start of iteration `i` (counted from 0) of
`protect_and_fetch_ptr` on the cell `c`, when no earlier iteration returned:
each iteration calls `update_reserve(birth())` and then `validate(birth())`. -/
def protect_state {σ : Type} (rt : RangeTracker σ) (c : biptr) : Nat → σ → σ
  | 0, s => s
  | i + 1, s => protect_state rt c i (rt.validate c.birth (rt.update_reserve c.birth s)).2

/-- The answer of `validate` in iteration `i` (counted from 0). -/
def protect_answer {σ : Type} (rt : RangeTracker σ) (c : biptr) (i : Nat) (s : σ) : Bool :=
  (rt.validate c.birth (rt.update_reserve c.birth (protect_state rt c i s))).1

/-- The calls `update_reserve(b)`, `validate(b)` repeated `n` times. -/
def reserve_validate_calls (b : Nat) : Nat → List biptr.TrackerCall
  | 0 => []
  | n + 1 =>
    biptr.TrackerCall.update_reserve b :: biptr.TrackerCall.validate b ::
      reserve_validate_calls b n

/-! ## Pointer semantics without birth tags -/

/-- The pointer semantics of one operation as the spec words it (section 8,
strategy equivalence), with no birth tag and no strategy: on a cell holding
the pointer `p`, `store(obj)` leaves `obj`; `CAS(ori, obj)` returns whether
`p` equals `ori` and leaves `obj` if so, `p` otherwise. -/
def Op.pointerStep (p : Nat) : Op → Option Bool × Nat
  | Op.store obj => (none, obj)
  | Op.CAS ori obj => (some (decide (p = ori)), if p = ori then obj else p)

/-- The pointer semantics of a list of operations: the flag and the pointer
left by each one, in order. -/
def pointerRun : Nat → List Op → List (Option Bool × Nat)
  | _, [] => []
  | p, op :: ops => op.pointerStep p :: pointerRun (op.pointerStep p).2 ops

/-! ## Concrete inputs -/

/-- A tracker for concrete runs: the object at address 8 is born at epoch 1,
the object at address 16 at epoch 5, every other one at epoch 0;
`update_reserve` does nothing and `validate` gives the answers listed in the
tracker state, in order, and `true` once the list is used up. -/
def scriptedTracker (t : TrackerType) : RangeTracker (List Bool) :=
  RangeTracker.mk t (fun p => if p = 8 then 1 else if p = 16 then 5 else 0)
    (fun _ s => s) (fun _ s => (s.headD true, s.tail))

/-- A memory of cells for concrete runs: the cell at address `a` is the one
constructed from the pointer `8 * (a + 1)`, so the cell at address 0 holds the
object at 8 and the cell at address 1 the object at 16. -/
def scriptedCells (t : TrackerType) : Nat → biptr :=
  fun a => biptr.new (scriptedTracker t) (8 * (a + 1))

/-! ## Closed forms of the operations -/

namespace biptr

variable {σ : Type}

theorem get_birth_epoch_lt (rt : RangeTracker σ) (obj : Nat) :
    get_birth_epoch rt obj < 2 ^ 64 := by
  unfold get_birth_epoch u64
  dsimp only
  split
  · exact Nat.mod_lt _ (by norm_num)
  · norm_num

/-- The `LF` loop started with `e_ori` equal to the birth word: after `spur`
spurious failures it leaves the larger of the two epochs. -/
theorem CAS_LF_loop_eq (birth_epoch w : Nat) :
    ∀ (spur fuel : Nat), spur < fuel →
      CAS_LF_loop birth_epoch fuel spur w w =
        some (if w < birth_epoch then LoopResult.mk birth_epoch (spur + 1) 1
              else LoopResult.mk w 0 0) := by
  intro spur
  induction spur with
  | zero =>
    intro fuel hf
    obtain ⟨f, rfl⟩ : ∃ f, fuel = f + 1 := ⟨fuel - 1, by omega⟩
    by_cases h : w < birth_epoch
    · simp [CAS_LF_loop, compare_exchange_weak, h]
    · simp [CAS_LF_loop, h]
  | succ n ih =>
    intro fuel hf
    obtain ⟨f, rfl⟩ : ∃ f, fuel = f + 1 := ⟨fuel - 1, by omega⟩
    have hn : n < f := by omega
    by_cases h : w < birth_epoch
    · simp [CAS_LF_loop, compare_exchange_weak, h, ih f hn, LoopResult.retried]
    · simp [CAS_LF_loop, h]

/-- The `WCAS` loop started with `old_value` equal to the word of the cell
writes at its first attempt. -/
theorem WCAS_loop_eq (new_value w : FatPtr) (fuel : Nat) (hf : 0 < fuel) :
    WCAS_loop new_value fuel w w = some (LoopResult.mk new_value 1 1) := by
  obtain ⟨f, rfl⟩ : ∃ f, fuel = f + 1 := ⟨fuel - 1, by omega⟩
  simp [WCAS_loop, compare_exchange_strong]

/-- The birth word left by the bump of `CAS` under `LF` and `FAA`. -/
theorem CAS_bump_eq (rt : RangeTracker σ) (fuel spur : Nat) (c : biptr) (obj : Nat)
    (ht : rt.type ≠ TrackerType.WCAS) (hf : spur < fuel) :
    CAS_bump rt fuel spur c obj = some (max c.birth (get_birth_epoch rt obj)) := by
  have hlt := get_birth_epoch_lt rt obj
  unfold CAS_bump
  dsimp only
  cases htype : rt.type with
  | LF =>
    simp only [CAS_LF_loop_eq _ _ spur fuel hf, birth]
    by_cases h : c.birth_before < get_birth_epoch rt obj
    · simp [h, Nat.max_eq_right (Nat.le_of_lt h)]
    · simp [h, Nat.max_eq_left (Nat.le_of_not_lt h)]
  | FAA =>
    simp only [birth, fetch_add, u64]
    by_cases h : c.birth_before < get_birth_epoch rt obj
    · have e : c.birth_before + (get_birth_epoch rt obj - c.birth_before)
          = get_birth_epoch rt obj := by omega
      rw [if_pos h, e, Nat.mod_eq_of_lt hlt, Nat.max_eq_right (Nat.le_of_lt h)]
    · simp [h, Nat.max_eq_left (Nat.le_of_not_lt h)]
  | WCAS => exact absurd htype ht

/-- The outcome of `CAS` under `LF` and `FAA`. -/
theorem CAS_eq_of_ne_WCAS (rt : RangeTracker σ) (fuel spur : Nat) (c : biptr) (ori obj : Nat)
    (ht : rt.type ≠ TrackerType.WCAS) (hf : spur < fuel) :
    CAS rt fuel spur c ori obj =
      some (CASResult.mk (decide (c.ptr = ori)) c.ptr
        (biptr.mk (FatPtr.mk (if c.ptr = ori then obj else c.ptr)
          (max c.birth (get_birth_epoch rt obj))))) := by
  unfold CAS
  rw [if_pos ht, CAS_bump_eq rt fuel spur c obj ht hf]
  by_cases h : c.ptr = ori
  · have h2 : c.fat_ptr.ptr = ori := h
    simp [compare_exchange_strong, set_p, set_birth_before, p, ptr, h2]
  · have h2 : ¬ c.fat_ptr.ptr = ori := h
    simp [compare_exchange_strong, set_p, set_birth_before, p, ptr, h2]

/-- The outcome of `CAS` under `WCAS`. -/
theorem CAS_eq_of_WCAS (rt : RangeTracker σ) (fuel spur : Nat) (c : biptr) (ori obj : Nat)
    (ht : rt.type = TrackerType.WCAS) :
    CAS rt fuel spur c ori obj =
      some (CASResult.mk (decide (c.ptr = ori)) ori
        (if c.ptr = ori then biptr.mk (FatPtr.mk obj (get_birth_epoch rt obj)) else c)) := by
  unfold CAS
  rw [if_neg (by simp [ht])]
  obtain ⟨⟨cp, ct⟩⟩ := c
  by_cases h : cp = ori
  · simp [compare_exchange_strong, birth_before, ptr, p, h]
  · simp [compare_exchange_strong, birth_before, ptr, p, h]

/-- The outcome of `store` under every strategy. -/
theorem store_eq (rt : RangeTracker σ) (fuel : Nat) (c : biptr) (obj : Nat) (hf : 0 < fuel) :
    store rt fuel c obj = some (biptr.mk (FatPtr.mk obj (get_birth_epoch rt obj))) := by
  unfold store
  by_cases ht : rt.type = TrackerType.WCAS
  · rw [if_neg (by simp [ht])]
    have e : FatPtr.mk c.p c.birth_before = c.fat_ptr := rfl
    simp [e, WCAS_loop_eq _ _ fuel hf]
  · rw [if_pos ht]
    simp [set_p, set_birth_before]

end biptr

/-! ## Runs -/

section Runs

variable {σ : Type}

/-- One operation with enough fuel returns; under `LF` and `FAA` the birth
tag it leaves is given by the operation alone. -/
theorem exec_eq_of_ne_WCAS (rt : RangeTracker σ) (fuel spur : Nat) (c : biptr) (op : Op)
    (ht : rt.type ≠ TrackerType.WCAS) (hf : spur < fuel) :
    op.exec rt fuel spur c = some (Outcome.mk (op.pointerStep c.load).1
      (biptr.mk (FatPtr.mk (op.pointerStep c.load).2
        (match op with
         | Op.store obj => biptr.get_birth_epoch rt obj
         | Op.CAS _ obj => max c.birth (biptr.get_birth_epoch rt obj))))) := by
  cases op with
  | store obj =>
    simp [Op.exec, Op.pointerStep, biptr.store_eq rt fuel c obj (by omega)]
  | CAS ori obj =>
    simp [Op.exec, Op.pointerStep, biptr.CAS_eq_of_ne_WCAS rt fuel spur c ori obj ht hf,
      biptr.load]

/-- One operation with enough fuel returns; under `WCAS` it leaves the pair of
the new pointer and its birth epoch, or the cell as it was. -/
theorem exec_eq_of_WCAS (rt : RangeTracker σ) (fuel spur : Nat) (c : biptr) (op : Op)
    (ht : rt.type = TrackerType.WCAS) (hf : spur < fuel) :
    op.exec rt fuel spur c = some (Outcome.mk (op.pointerStep c.load).1
      (match op with
       | Op.store obj => biptr.mk (FatPtr.mk obj (biptr.get_birth_epoch rt obj))
       | Op.CAS ori obj =>
         if c.ptr = ori then biptr.mk (FatPtr.mk obj (biptr.get_birth_epoch rt obj)) else c)) := by
  cases op with
  | store obj =>
    simp [Op.exec, Op.pointerStep, biptr.store_eq rt fuel c obj (by omega)]
  | CAS ori obj =>
    simp [Op.exec, Op.pointerStep, biptr.CAS_eq_of_WCAS rt fuel spur c ori obj ht,
      biptr.load]

/-- One operation with enough fuel returns, and its flag and pointer are
those of the pointer semantics. -/
theorem exec_pointerStep (rt : RangeTracker σ) (fuel spur : Nat) (c : biptr) (op : Op)
    (hf : spur < fuel) :
    ∃ o, op.exec rt fuel spur c = some o ∧
      (o.result, o.cell.load) = op.pointerStep c.load := by
  by_cases ht : rt.type = TrackerType.WCAS
  · refine ⟨_, exec_eq_of_WCAS rt fuel spur c op ht hf, ?_⟩
    cases op with
    | store obj => simp [Op.pointerStep, biptr.load, biptr.ptr, biptr.p]
    | CAS ori obj =>
      by_cases h : c.ptr = ori
      · have h2 : c.load = ori := h
        simp [Op.pointerStep, h, h2]
        simp [biptr.load, biptr.ptr, biptr.p]
      · have h2 : ¬ c.load = ori := h
        simp [Op.pointerStep, h, h2]
  · refine ⟨_, exec_eq_of_ne_WCAS rt fuel spur c op ht hf, ?_⟩
    simp [biptr.load, biptr.ptr, biptr.p]

/-- A property of cells kept by every operation holds after every operation
of a run, and the run returns. -/
theorem run_invariant (rt : RangeTracker σ) (fuel : Nat) (P : biptr → Prop)
    (hP : ∀ (c : biptr) (op : Op) (s : Nat) (o : Outcome),
      P c → s < fuel → op.exec rt fuel s c = some o → P o.cell) :
    ∀ (ops : List Op) (spur : Nat → Nat) (c : biptr), P c →
      (∀ i, i < ops.length → spur i < fuel) →
      ∃ os, run rt fuel spur c ops = some os ∧ os.length = ops.length ∧
        ∀ o ∈ os, P o.cell := by
  intro ops
  induction ops with
  | nil => intro spur c _ _; exact ⟨[], rfl, rfl, by simp⟩
  | cons op ops ih =>
    intro spur c hc hf
    obtain ⟨o, ho, _⟩ := exec_pointerStep rt fuel (spur 0) c op (hf 0 (by simp))
    have hPo : P o.cell := hP c op (spur 0) o hc (hf 0 (by simp)) ho
    obtain ⟨os, hos, hlen, hall⟩ := ih (fun i => spur (i + 1)) o.cell hPo
      (fun i hi => hf (i + 1) (by simpa using hi))
    refine ⟨o :: os, ?_, by simp [hlen], ?_⟩
    · simp [run, ho, hos]
    · intro x hx
      rcases List.mem_cons.mp hx with rfl | hx
      · exact hPo
      · exact hall x hx

/-- A run with enough fuel returns, and its flags and pointers are those of
the pointer semantics. -/
theorem run_pointerRun (rt : RangeTracker σ) (fuel : Nat) :
    ∀ (ops : List Op) (spur : Nat → Nat) (c : biptr),
      (∀ i, i < ops.length → spur i < fuel) →
      ∃ os, run rt fuel spur c ops = some os ∧
        os.map (fun o => (o.result, o.cell.load)) = pointerRun c.load ops := by
  intro ops
  induction ops with
  | nil => intro spur c _; exact ⟨[], rfl, rfl⟩
  | cons op ops ih =>
    intro spur c hf
    obtain ⟨o, ho, hstep⟩ := exec_pointerStep rt fuel (spur 0) c op (hf 0 (by simp))
    obtain ⟨os, hos, hmap⟩ := ih (fun i => spur (i + 1)) o.cell
      (fun i hi => hf (i + 1) (by simpa using hi))
    refine ⟨o :: os, ?_, ?_⟩
    · simp [run, ho, hos]
    · have h2 : o.cell.load = (op.pointerStep c.load).2 := by rw [← hstep]
      have h1 : o.result = (op.pointerStep c.load).1 := by rw [← hstep]
      simp only [List.map_cons, pointerRun, hmap, h2, h1]

end Runs

/-! ## The read protocol -/

section Protect

variable {σ : Type}

/-- The read protocol returns in the first iteration whose validation
succeeds, given fuel for that many iterations. -/
theorem protect_and_fetch_ptr_eq (rt : RangeTracker σ) (c : biptr) :
    ∀ (k fuel : Nat) (s : σ), (∀ i, i < k → protect_answer rt c i s = false) →
      protect_answer rt c k s = true → k < fuel →
      biptr.protect_and_fetch_ptr rt fuel c s =
        some (biptr.ProtectResult.mk c.ptr c
          (rt.validate c.birth (rt.update_reserve c.birth (protect_state rt c k s))).2
          (k + 1) (reserve_validate_calls c.birth (k + 1))) := by
  intro k
  induction k with
  | zero =>
    intro fuel s _ htrue hf
    obtain ⟨f, rfl⟩ : ∃ f, fuel = f + 1 := ⟨fuel - 1, by omega⟩
    have h1 : (rt.validate c.birth (rt.update_reserve c.birth s)).1 = true := htrue
    rcases hv : rt.validate c.birth (rt.update_reserve c.birth s) with ⟨ok, s2⟩
    rw [hv] at h1
    have hok : ok = true := h1
    subst hok
    simp [biptr.protect_and_fetch_ptr, hv, protect_state, reserve_validate_calls]
  | succ n ih =>
    intro fuel s hfalse htrue hf
    obtain ⟨f, rfl⟩ : ∃ f, fuel = f + 1 := ⟨fuel - 1, by omega⟩
    have h0 : (rt.validate c.birth (rt.update_reserve c.birth s)).1 = false :=
      hfalse 0 (by omega)
    rcases hv : rt.validate c.birth (rt.update_reserve c.birth s) with ⟨ok, s2⟩
    rw [hv] at h0
    have hok : ok = false := h0
    subst hok
    have hs2 : s2 = (rt.validate c.birth (rt.update_reserve c.birth s)).2 := by rw [hv]
    have hrec := ih f s2
      (by
        intro i hi
        have := hfalse (i + 1) (by omega)
        rw [hs2]
        exact this)
      (by rw [hs2]; exact htrue)
      (by omega)
    have hst : protect_state rt c (n + 1) s = protect_state rt c n s2 := by
      rw [hs2]; rfl
    simp [biptr.protect_and_fetch_ptr, hv, hrec, hst, reserve_validate_calls]

/-- The read protocol does not return while validation fails. -/
theorem protect_and_fetch_ptr_none (rt : RangeTracker σ) (c : biptr) :
    ∀ (fuel k : Nat) (s : σ), (∀ i, i < k → protect_answer rt c i s = false) →
      fuel ≤ k → biptr.protect_and_fetch_ptr rt fuel c s = none := by
  intro fuel
  induction fuel with
  | zero => intro k s _ _; rfl
  | succ f ih =>
    intro k s hfalse hf
    have h0 : (rt.validate c.birth (rt.update_reserve c.birth s)).1 = false :=
      hfalse 0 (by omega)
    rcases hv : rt.validate c.birth (rt.update_reserve c.birth s) with ⟨ok, s2⟩
    rw [hv] at h0
    have hok : ok = false := h0
    subst hok
    have hs2 : s2 = (rt.validate c.birth (rt.update_reserve c.birth s)).2 := by rw [hv]
    have hrec := ih (k - 1) s2
      (by
        intro i hi
        have := hfalse (i + 1) (by omega)
        rw [hs2]
        exact this)
      (by omega)
    simp [biptr.protect_and_fetch_ptr, hv, hrec]

end Protect

/-! ## Runs of compare-and-swap attempts -/

/-- Once the cell holds a pointer other than `e`, every `CAS(e, obj)` fails
and leaves it there. -/
theorem pointerRun_CAS_mismatch (e q : Nat) (h : q ≠ e) :
    ∀ objs : List Nat,
      pointerRun q (objs.map (Op.CAS e)) = List.replicate objs.length (some false, q) := by
  intro objs
  induction objs with
  | nil => rfl
  | cons o rest ih =>
    simp [pointerRun, Op.pointerStep, h, ih, List.replicate_succ]

/-- The flags of a run read off its pointer semantics. -/
theorem casResults_eq_of_map (os : List Outcome) (l : List (Option Bool × Nat))
    (h : os.map (fun o => (o.result, o.cell.load)) = l) :
    casResults os = l.filterMap Prod.fst := by
  subst h
  unfold casResults
  rw [List.filterMap_map]
  rfl

/-- The pointer of the final cell of a run read off its pointer semantics. -/
theorem finalCell_load_eq_of_map (c : biptr) (os : List Outcome)
    (l : List (Option Bool × Nat))
    (h : os.map (fun o => (o.result, o.cell.load)) = l) :
    (finalCell c os).load = (l.getLast?.map Prod.snd).getD c.load := by
  subst h
  unfold finalCell
  rw [List.getLast?_map]
  cases os.getLast? <;> rfl

/-! ## The pointer mask -/

/-- Clearing the two low bits of a 64-bit word: the mask `0xfffffffffffffffc`
keeps bits 2 to 63. -/
theorem land_mask_eq (obj : Nat) :
    obj &&& 0xfffffffffffffffc = 4 * ((obj % 2 ^ 64) / 4) := by
  have hm : (0xfffffffffffffffc : Nat) = 2 ^ 2 * (2 ^ 62 - 1) := by norm_num
  have key : obj &&& 2 ^ 2 * (2 ^ 62 - 1) = 2 ^ 2 * ((obj % 2 ^ 64) / 2 ^ 2) := by
    apply Nat.eq_of_testBit_eq
    intro i
    rw [Nat.testBit_and, Nat.testBit_mul_pow_two, Nat.testBit_mul_pow_two,
      Nat.testBit_two_pow_sub_one, ← Nat.shiftRight_eq_div_pow, Nat.testBit_shiftRight,
      Nat.testBit_mod_two_pow]
    by_cases h2 : i ≥ 2
    · have e : 2 + (i - 2) = i := by omega
      rw [e]
      by_cases h64 : i < 64
      · have h62 : i - 2 < 62 := by omega
        simp [h2, h64, h62]
      · have h62 : ¬ i - 2 < 62 := by omega
        simp [h2, h64, h62]
    · simp [h2]
  rw [hm, key]
  norm_num

/-- The masked pointer is a multiple of 4. -/
theorem land_mask_mod_four (obj : Nat) : (obj &&& 0xfffffffffffffffc) % 4 = 0 := by
  rw [land_mask_eq]
  omega

/-- Masking twice is masking once. -/
theorem land_mask_idem (obj : Nat) :
    (obj &&& 0xfffffffffffffffc) &&& 0xfffffffffffffffc = obj &&& 0xfffffffffffffffc := by
  rw [Nat.and_assoc, Nat.and_self]

/-! ## The bump under `LF` and under `FAA` -/

section Bump

variable {σ : Type}

/-- Under `FAA` the bump of `CAS` is the `FAA` case run on the birth word that
was just read. -/
theorem CAS_bump_of_FAA (rt : RangeTracker σ) (fuel spur : Nat) (c : biptr) (obj : Nat)
    (ht : rt.type = TrackerType.FAA) :
    biptr.CAS_bump rt fuel spur c obj =
      some (biptr.CAS_FAA (biptr.get_birth_epoch rt obj) c.birth_before c.birth_before) := by
  unfold biptr.CAS_bump biptr.CAS_FAA
  dsimp only
  rw [ht]
  dsimp only
  split <;> rfl

/-- One operation leaves the same outcome under `LF` and under `FAA`. -/
theorem exec_LF_eq_FAA (rt : RangeTracker σ) (fuel sL sF : Nat) (c : biptr) (op : Op)
    (hL : sL < fuel) (hF : sF < fuel) :
    op.exec (rt.withType TrackerType.LF) fuel sL c =
      op.exec (rt.withType TrackerType.FAA) fuel sF c := by
  rw [exec_eq_of_ne_WCAS (rt.withType TrackerType.LF) fuel sL c op
      (by simp [RangeTracker.withType]) hL,
    exec_eq_of_ne_WCAS (rt.withType TrackerType.FAA) fuel sF c op
      (by simp [RangeTracker.withType]) hF]
  cases op <;> rfl

/-- A run leaves the same outcomes under `LF` and under `FAA`. -/
theorem run_LF_eq_FAA (rt : RangeTracker σ) (fuel : Nat) :
    ∀ (ops : List Op) (spurL spurF : Nat → Nat) (c : biptr),
      (∀ i, i < ops.length → spurL i < fuel) → (∀ i, i < ops.length → spurF i < fuel) →
      run (rt.withType TrackerType.LF) fuel spurL c ops =
        run (rt.withType TrackerType.FAA) fuel spurF c ops := by
  intro ops
  induction ops with
  | nil => intro _ _ _ _ _; rfl
  | cons op ops ih =>
    intro spurL spurF c hL hF
    have h0 := exec_LF_eq_FAA rt fuel (spurL 0) (spurF 0) c op (hL 0 (by simp)) (hF 0 (by simp))
    unfold run
    rw [h0]
    cases Op.exec (rt.withType TrackerType.FAA) fuel (spurF 0) c op with
    | none => rfl
    | some o =>
      dsimp only
      rw [ih (fun i => spurL (i + 1)) (fun i => spurF (i + 1)) o.cell
        (fun i hi => hL (i + 1) (by simpa using hi))
        (fun i hi => hF (i + 1) (by simpa using hi))]

end Bump

/-! ## Claims -/

section Claims

variable {σ : Type}

/-- C1 (upper-bound safety).  For every strategy, every cell constructed from
a raw pointer and every finite sequence of `store` and `CAS` operations run on
it with enough fuel, the run returns an outcome for every operation, and after
each operation `birth()` is at least `get_birth_epoch(load())` under `LF` and
`FAA` and equal to it under `WCAS`. -/
theorem C1_upper_bound_safety (rt : RangeTracker σ) (fuel : Nat) (spur : Nat → Nat)
    (obj0 : Nat) (ops : List Op) (hf : ∀ i, i < ops.length → spur i < fuel) :
    ∃ os, run rt fuel spur (biptr.new rt obj0) ops = some os ∧ os.length = ops.length ∧
      ∀ o ∈ os,
        (rt.type ≠ TrackerType.WCAS →
          biptr.get_birth_epoch rt o.cell.load ≤ o.cell.birth) ∧
        (rt.type = TrackerType.WCAS →
          o.cell.birth = biptr.get_birth_epoch rt o.cell.load) := by
  by_cases ht : rt.type = TrackerType.WCAS
  · obtain ⟨os, hos, hlen, hall⟩ := run_invariant rt fuel
      (fun c => c.birth = biptr.get_birth_epoch rt c.load)
      (by
        intro c op s o hc hs ho
        rw [exec_eq_of_WCAS rt fuel s c op ht hs] at ho
        cases ho
        cases op with
        | store obj => rfl
        | CAS ori obj =>
          by_cases h : c.ptr = ori
          · simp only [h, if_true]; rfl
          · simp only [h, if_false]; exact hc)
      ops spur (biptr.new rt obj0) rfl hf
    exact ⟨os, hos, hlen, fun o ho => ⟨fun hne => absurd ht hne, fun _ => hall o ho⟩⟩
  · obtain ⟨os, hos, hlen, hall⟩ := run_invariant rt fuel
      (fun c => biptr.get_birth_epoch rt c.load ≤ c.birth)
      (by
        intro c op s o hc hs ho
        rw [exec_eq_of_ne_WCAS rt fuel s c op ht hs] at ho
        cases ho
        cases op with
        | store obj => exact Nat.le_refl _
        | CAS ori obj =>
          show biptr.get_birth_epoch rt (if c.load = ori then obj else c.load)
            ≤ max c.birth (biptr.get_birth_epoch rt obj)
          by_cases h : c.load = ori
          · simp only [h, if_true]; exact Nat.le_max_right _ _
          · simp only [h, if_false]; exact Nat.le_trans hc (Nat.le_max_left _ _))
      ops spur (biptr.new rt obj0) (Nat.le_refl _) hf
    exact ⟨os, hos, hlen, fun o ho => ⟨fun _ => hall o ho, fun h => absurd h ht⟩⟩

/-- Witness of C1: the cell constructed from the object at 8 under `LF`, then
`store(16)` and `CAS(16, 8)` with one spurious failure each. -/
theorem C1_upper_bound_safety_witness :
    ∃ os, run (scriptedTracker TrackerType.LF) 2 (fun _ => 1)
        (biptr.new (scriptedTracker TrackerType.LF) 8) [Op.store 16, Op.CAS 16 8] = some os ∧
      os.length = [Op.store 16, Op.CAS 16 8].length ∧
      ∀ o ∈ os,
        ((scriptedTracker TrackerType.LF).type ≠ TrackerType.WCAS →
          biptr.get_birth_epoch (scriptedTracker TrackerType.LF) o.cell.load ≤ o.cell.birth) ∧
        ((scriptedTracker TrackerType.LF).type = TrackerType.WCAS →
          o.cell.birth = biptr.get_birth_epoch (scriptedTracker TrackerType.LF) o.cell.load) :=
  C1_upper_bound_safety (scriptedTracker TrackerType.LF) 2 (fun _ => 1) 8
    [Op.store 16, Op.CAS 16 8] (fun _ _ => (by decide : 1 < 2))

/-- C2, as stated, fails: under `LF` the cell constructed from the object at
16 (born at epoch 5) has `birth()` 5, and `store(8)` (an object born at epoch
1) returns a cell with `birth()` 1, which is below the tag before the store and
is not the maximum of that tag and `get_birth_epoch(8)`; the same under
`FAA`. -/
theorem C2_store_lowers_birth :
    (biptr.new (scriptedTracker TrackerType.LF) 16).birth = 5 ∧
    biptr.get_birth_epoch (scriptedTracker TrackerType.LF) 8 = 1 ∧
    (∃ c1, biptr.store (scriptedTracker TrackerType.LF) 1
        (biptr.new (scriptedTracker TrackerType.LF) 16) 8 = some c1 ∧
      c1.birth = 1 ∧
      c1.birth < (biptr.new (scriptedTracker TrackerType.LF) 16).birth ∧
      c1.birth ≠ max (biptr.new (scriptedTracker TrackerType.LF) 16).birth
        (biptr.get_birth_epoch (scriptedTracker TrackerType.LF) 8)) ∧
    (∃ c1, biptr.store (scriptedTracker TrackerType.FAA) 1
        (biptr.new (scriptedTracker TrackerType.FAA) 16) 8 = some c1 ∧
      c1.birth = 1 ∧
      c1.birth < (biptr.new (scriptedTracker TrackerType.FAA) 16).birth) :=
  ⟨by decide, by decide, ⟨biptr.mk (FatPtr.mk 8 1), by decide, by decide, by decide, by decide⟩,
    ⟨biptr.mk (FatPtr.mk 8 1), by decide, by decide, by decide⟩⟩

/-- C2, amended (birth tag after each write under `LF` and `FAA`).  `CAS(ori,
obj)` never lowers `birth()`: it leaves the maximum of the tag before and
`get_birth_epoch(obj)`.  `store(obj)` and assignment from a raw pointer leave
`birth()` equal to `get_birth_epoch(obj)`, whatever the tag was before, and copy
assignment from another cell leaves the `birth()` of that cell. -/
theorem C2_birth_after_write (rt : RangeTracker σ) (fuel spur : Nat) (c : biptr)
    (ori obj : Nat) (mem : Nat → biptr) (this other : Nat)
    (ht : rt.type ≠ TrackerType.WCAS) (hf : spur < fuel) (hne : this ≠ other) :
    (∃ r, biptr.CAS rt fuel spur c ori obj = some r ∧
      r.cell.birth = max c.birth (biptr.get_birth_epoch rt obj) ∧
      c.birth ≤ r.cell.birth) ∧
    (∃ c1, biptr.store rt fuel c obj = some c1 ∧
      c1.birth = biptr.get_birth_epoch rt obj) ∧
    (∃ c1, biptr.assign_ptr rt fuel c obj = some c1 ∧
      c1.birth = biptr.get_birth_epoch rt obj) ∧
    (∃ m1, biptr.assign rt fuel mem this other = some m1 ∧
      (m1 this).birth = (mem other).birth) := by
  have hs := biptr.store_eq rt fuel c obj (by omega)
  refine ⟨⟨_, biptr.CAS_eq_of_ne_WCAS rt fuel spur c ori obj ht hf, rfl, ?_⟩,
    ⟨_, hs, rfl⟩, ⟨_, hs, rfl⟩, ?_⟩
  · exact Nat.le_max_left _ _
  · refine ⟨Function.update mem this
      (((mem this).set_birth_before (mem other).birth).set_p (mem other).ptr), ?_, ?_⟩
    · unfold biptr.assign
      rw [if_pos hne, if_pos ht]
    · simp [biptr.birth, biptr.birth_before, biptr.set_p, biptr.set_birth_before]

/-- Witness of C2 (amended): under `LF`, the cell constructed from the object
at 8, `CAS(8, 16)`, and the assignment of the cell at address 1 to the cell at
address 0. -/
theorem C2_birth_after_write_witness :
    (∃ r, biptr.CAS (scriptedTracker TrackerType.LF) 1 0
        (biptr.new (scriptedTracker TrackerType.LF) 8) 8 16 = some r ∧
      r.cell.birth = max (biptr.new (scriptedTracker TrackerType.LF) 8).birth
        (biptr.get_birth_epoch (scriptedTracker TrackerType.LF) 16) ∧
      (biptr.new (scriptedTracker TrackerType.LF) 8).birth ≤ r.cell.birth) ∧
    (∃ c1, biptr.store (scriptedTracker TrackerType.LF) 1
        (biptr.new (scriptedTracker TrackerType.LF) 8) 16 = some c1 ∧
      c1.birth = biptr.get_birth_epoch (scriptedTracker TrackerType.LF) 16) ∧
    (∃ c1, biptr.assign_ptr (scriptedTracker TrackerType.LF) 1
        (biptr.new (scriptedTracker TrackerType.LF) 8) 16 = some c1 ∧
      c1.birth = biptr.get_birth_epoch (scriptedTracker TrackerType.LF) 16) ∧
    (∃ m1, biptr.assign (scriptedTracker TrackerType.LF) 1
        (fun a => biptr.new (scriptedTracker TrackerType.LF) (8 * (a + 1))) 0 1 = some m1 ∧
      (m1 0).birth =
        ((fun a => biptr.new (scriptedTracker TrackerType.LF) (8 * (a + 1))) 1).birth) :=
  C2_birth_after_write (scriptedTracker TrackerType.LF) 1 0
    (biptr.new (scriptedTracker TrackerType.LF) 8) 8 16
    (fun a => biptr.new (scriptedTracker TrackerType.LF) (8 * (a + 1))) 0 1
    (by decide) (by decide) (by decide)

/-- C3 (success condition and effect of `CAS`).  For every strategy, cell and
pointers `ori` and `obj`, `CAS(ori, obj)` with enough fuel returns; it returns
true exactly when the pointer of the cell equals `ori`; after a true result
`load()` is `obj`, after a false one it is the pointer held before. -/
theorem C3_CAS_success_and_effect (rt : RangeTracker σ) (fuel spur : Nat) (c : biptr)
    (ori obj : Nat) (hf : spur < fuel) :
    ∃ r, biptr.CAS rt fuel spur c ori obj = some r ∧
      (r.success = true ↔ c.load = ori) ∧
      (r.success = true → r.cell.load = obj) ∧
      (r.success = false → r.cell.load = c.load) := by
  by_cases ht : rt.type = TrackerType.WCAS
  · refine ⟨_, biptr.CAS_eq_of_WCAS rt fuel spur c ori obj ht, ?_, ?_, ?_⟩
    · simp [biptr.load]
    · intro h
      have h2 : c.ptr = ori := by simpa using h
      dsimp only
      rw [if_pos h2]
      rfl
    · intro h
      have h2 : ¬ c.ptr = ori := by simpa using h
      dsimp only
      rw [if_neg h2]
  · refine ⟨_, biptr.CAS_eq_of_ne_WCAS rt fuel spur c ori obj ht hf, ?_, ?_, ?_⟩
    · simp [biptr.load]
    · intro h
      have h2 : c.ptr = ori := by simpa using h
      show (if c.ptr = ori then obj else c.ptr) = obj
      rw [if_pos h2]
    · intro h
      have h2 : ¬ c.ptr = ori := by simpa using h
      show (if c.ptr = ori then obj else c.ptr) = c.ptr
      rw [if_neg h2]

/-- Witness of C3: under `WCAS`, `CAS(8, 17)` on the cell constructed from the
object at 8. -/
theorem C3_CAS_success_and_effect_witness :
    ∃ r, biptr.CAS (scriptedTracker TrackerType.WCAS) 1 0
        (biptr.new (scriptedTracker TrackerType.WCAS) 8) 8 17 = some r ∧
      (r.success = true ↔ (biptr.new (scriptedTracker TrackerType.WCAS) 8).load = 8) ∧
      (r.success = true → r.cell.load = 17) ∧
      (r.success = false →
        r.cell.load = (biptr.new (scriptedTracker TrackerType.WCAS) 8).load) :=
  C3_CAS_success_and_effect (scriptedTracker TrackerType.WCAS) 1 0
    (biptr.new (scriptedTracker TrackerType.WCAS) 8) 8 17 (by decide)

/-- C4 (the code at the failing input).  On the cell constructed from the
object at 8, `CAS(ori, 24)` with `ori` equal to 16 returns false under every
strategy and leaves the pointer 8 in the cell; under `LF` and `FAA` the
caller's `ori` then holds 8, under `WCAS` it still holds 16. -/
theorem C4_WCAS_failure_keeps_ori :
    biptr.CAS (scriptedTracker TrackerType.WCAS) 1 0
        (biptr.new (scriptedTracker TrackerType.WCAS) 8) 16 24 =
      some (biptr.CASResult.mk false 16 (biptr.mk (FatPtr.mk 8 1))) ∧
    biptr.CAS (scriptedTracker TrackerType.LF) 1 0
        (biptr.new (scriptedTracker TrackerType.LF) 8) 16 24 =
      some (biptr.CASResult.mk false 8 (biptr.mk (FatPtr.mk 8 1))) ∧
    biptr.CAS (scriptedTracker TrackerType.FAA) 1 0
        (biptr.new (scriptedTracker TrackerType.FAA) 8) 16 24 =
      some (biptr.CASResult.mk false 8 (biptr.mk (FatPtr.mk 8 1))) := by
  decide

/-- C5 (load/store round-trip).  For every strategy, cell and pointer `obj`,
`store(obj)` with enough fuel returns and `load()` on the cell it leaves is
`obj`; the same for the assignment from a raw pointer. -/
theorem C5_store_load_roundtrip (rt : RangeTracker σ) (fuel : Nat) (c : biptr) (obj : Nat)
    (hf : 0 < fuel) :
    (∃ c1, biptr.store rt fuel c obj = some c1 ∧ c1.load = obj) ∧
    (∃ c1, biptr.assign_ptr rt fuel c obj = some c1 ∧ c1.load = obj) :=
  ⟨⟨_, biptr.store_eq rt fuel c obj hf, rfl⟩, ⟨_, biptr.store_eq rt fuel c obj hf, rfl⟩⟩

/-- Witness of C5: under `WCAS`, the marked pointer 17 stored into the cell
constructed from the object at 8. -/
theorem C5_store_load_roundtrip_witness :
    (∃ c1, biptr.store (scriptedTracker TrackerType.WCAS) 1
        (biptr.new (scriptedTracker TrackerType.WCAS) 8) 17 = some c1 ∧ c1.load = 17) ∧
    (∃ c1, biptr.assign_ptr (scriptedTracker TrackerType.WCAS) 1
        (biptr.new (scriptedTracker TrackerType.WCAS) 8) 17 = some c1 ∧ c1.load = 17) :=
  C5_store_load_roundtrip (scriptedTracker TrackerType.WCAS) 1
    (biptr.new (scriptedTracker TrackerType.WCAS) 8) 17 (by decide)

/-- C7 (protect-then-validate loop).  When `validate` answers false in the
first `k` iterations and true in the next one, `protect_and_fetch_ptr` with
fuel for more than `k` iterations returns after exactly `k + 1` iterations
the pointer of the cell (its `load()`), leaves the cell as it was, and has
called `update_reserve(b)` and then `validate(b)` in every iteration with `b`
the birth tag of the cell; with fuel for at most `k` iterations it has not
returned, so no pointer read in a failed iteration is ever returned. -/
theorem C7_protect_then_validate (rt : RangeTracker σ) (c : biptr) (s : σ) (k : Nat)
    (hfalse : ∀ i, i < k → protect_answer rt c i s = false)
    (htrue : protect_answer rt c k s = true) :
    (∀ fuel, k < fuel →
      ∃ r, biptr.protect_and_fetch_ptr rt fuel c s = some r ∧
        r.iterations = k + 1 ∧ r.ret = c.load ∧ r.cell = c ∧
        r.calls = reserve_validate_calls c.birth (k + 1)) ∧
    (∀ fuel, fuel ≤ k → biptr.protect_and_fetch_ptr rt fuel c s = none) :=
  ⟨fun fuel hf =>
      ⟨_, protect_and_fetch_ptr_eq rt c k fuel s hfalse htrue hf, rfl, rfl, rfl, rfl⟩,
    fun fuel hf => protect_and_fetch_ptr_none rt c fuel k s hfalse hf⟩

/-- Witness of C7: the cell constructed from the object at 8 and a tracker
whose `validate` answers false twice and then true. -/
theorem C7_protect_then_validate_witness :
    (∀ fuel, 2 < fuel →
      ∃ r, biptr.protect_and_fetch_ptr (scriptedTracker TrackerType.LF) fuel
          (biptr.new (scriptedTracker TrackerType.LF) 8) [false, false] = some r ∧
        r.iterations = 2 + 1 ∧ r.ret = (biptr.new (scriptedTracker TrackerType.LF) 8).load ∧
        r.cell = biptr.new (scriptedTracker TrackerType.LF) 8 ∧
        r.calls = reserve_validate_calls
          (biptr.new (scriptedTracker TrackerType.LF) 8).birth (2 + 1)) ∧
    (∀ fuel, fuel ≤ 2 →
      biptr.protect_and_fetch_ptr (scriptedTracker TrackerType.LF) fuel
        (biptr.new (scriptedTracker TrackerType.LF) 8) [false, false] = none) :=
  C7_protect_then_validate (scriptedTracker TrackerType.LF)
    (biptr.new (scriptedTracker TrackerType.LF) 8) [false, false] 2
    (by decide) (by decide)

/-- C8 (strategy equivalence).  For every initial pointer and every finite
sequence of `store` and `CAS` operations, the runs under `LF`, under `FAA` and
under `WCAS` (each with enough fuel, whatever the spurious failures) return,
give the same flag for every `CAS`, and leave the same pointer for `load()`. -/
theorem C8_strategy_equivalence (rt : RangeTracker σ) (fuel : Nat)
    (spurL spurF spurW : Nat → Nat) (obj0 : Nat) (ops : List Op)
    (hL : ∀ i, i < ops.length → spurL i < fuel)
    (hF : ∀ i, i < ops.length → spurF i < fuel)
    (hW : ∀ i, i < ops.length → spurW i < fuel) :
    ∃ osL osF osW,
      run (rt.withType TrackerType.LF) fuel spurL
        (biptr.new (rt.withType TrackerType.LF) obj0) ops = some osL ∧
      run (rt.withType TrackerType.FAA) fuel spurF
        (biptr.new (rt.withType TrackerType.FAA) obj0) ops = some osF ∧
      run (rt.withType TrackerType.WCAS) fuel spurW
        (biptr.new (rt.withType TrackerType.WCAS) obj0) ops = some osW ∧
      casResults osL = casResults osF ∧ casResults osF = casResults osW ∧
      (finalCell (biptr.new (rt.withType TrackerType.LF) obj0) osL).load =
        (finalCell (biptr.new (rt.withType TrackerType.FAA) obj0) osF).load ∧
      (finalCell (biptr.new (rt.withType TrackerType.FAA) obj0) osF).load =
        (finalCell (biptr.new (rt.withType TrackerType.WCAS) obj0) osW).load := by
  obtain ⟨osL, hrL, hmL⟩ := run_pointerRun (rt.withType TrackerType.LF) fuel ops spurL
    (biptr.new (rt.withType TrackerType.LF) obj0) hL
  obtain ⟨osF, hrF, hmF⟩ := run_pointerRun (rt.withType TrackerType.FAA) fuel ops spurF
    (biptr.new (rt.withType TrackerType.FAA) obj0) hF
  obtain ⟨osW, hrW, hmW⟩ := run_pointerRun (rt.withType TrackerType.WCAS) fuel ops spurW
    (biptr.new (rt.withType TrackerType.WCAS) obj0) hW
  refine ⟨osL, osF, osW, hrL, hrF, hrW, ?_, ?_, ?_, ?_⟩
  · rw [casResults_eq_of_map osL _ hmL, casResults_eq_of_map osF _ hmF]; rfl
  · rw [casResults_eq_of_map osF _ hmF, casResults_eq_of_map osW _ hmW]; rfl
  · rw [finalCell_load_eq_of_map _ osL _ hmL, finalCell_load_eq_of_map _ osF _ hmF]; rfl
  · rw [finalCell_load_eq_of_map _ osF _ hmF, finalCell_load_eq_of_map _ osW _ hmW]; rfl

/-- Witness of C8: from the pointer 8, `store(16)`, `CAS(16, 9)`, `CAS(16, 24)`
and `store(8)`, with different numbers of spurious failures in the three
runs. -/
theorem C8_strategy_equivalence_witness :
    ∃ osL osF osW,
      run ((scriptedTracker TrackerType.LF).withType TrackerType.LF) 3 (fun _ => 2)
        (biptr.new ((scriptedTracker TrackerType.LF).withType TrackerType.LF) 8)
        [Op.store 16, Op.CAS 16 9, Op.CAS 16 24, Op.store 8] = some osL ∧
      run ((scriptedTracker TrackerType.LF).withType TrackerType.FAA) 3 (fun _ => 1)
        (biptr.new ((scriptedTracker TrackerType.LF).withType TrackerType.FAA) 8)
        [Op.store 16, Op.CAS 16 9, Op.CAS 16 24, Op.store 8] = some osF ∧
      run ((scriptedTracker TrackerType.LF).withType TrackerType.WCAS) 3 (fun _ => 0)
        (biptr.new ((scriptedTracker TrackerType.LF).withType TrackerType.WCAS) 8)
        [Op.store 16, Op.CAS 16 9, Op.CAS 16 24, Op.store 8] = some osW ∧
      casResults osL = casResults osF ∧ casResults osF = casResults osW ∧
      (finalCell (biptr.new ((scriptedTracker TrackerType.LF).withType TrackerType.LF) 8)
          osL).load =
        (finalCell (biptr.new ((scriptedTracker TrackerType.LF).withType TrackerType.FAA) 8)
          osF).load ∧
      (finalCell (biptr.new ((scriptedTracker TrackerType.LF).withType TrackerType.FAA) 8)
          osF).load =
        (finalCell (biptr.new ((scriptedTracker TrackerType.LF).withType TrackerType.WCAS) 8)
          osW).load :=
  C8_strategy_equivalence (scriptedTracker TrackerType.LF) 3 (fun _ => 2) (fun _ => 1)
    (fun _ => 0) 8 [Op.store 16, Op.CAS 16 9, Op.CAS 16 24, Op.store 8]
    (fun _ _ => (by decide : 2 < 3)) (fun _ _ => (by decide : 1 < 3))
    (fun _ _ => (by decide : 0 < 3))

/-- C9, as stated, fails: on the cell constructed from the object at 8, the
two attempts `CAS(8, 8)` and `CAS(8, 16)`, both starting from the expected
value 8, both return true, under each of the three strategies: two attempts
succeed, not one. -/
theorem C9_two_attempts_succeed :
    (run (scriptedTracker TrackerType.LF) 1 (fun _ => 0)
      (biptr.new (scriptedTracker TrackerType.LF) 8)
      [Op.CAS 8 8, Op.CAS 8 16]).map casResults = some [true, true] ∧
    (run (scriptedTracker TrackerType.FAA) 1 (fun _ => 0)
      (biptr.new (scriptedTracker TrackerType.FAA) 8)
      [Op.CAS 8 8, Op.CAS 8 16]).map casResults = some [true, true] ∧
    (run (scriptedTracker TrackerType.WCAS) 1 (fun _ => 0)
      (biptr.new (scriptedTracker TrackerType.WCAS) 8)
      [Op.CAS 8 8, Op.CAS 8 16]).map casResults = some [true, true] ∧
    (run (scriptedTracker TrackerType.WCAS) 1 (fun _ => 0)
      (biptr.new (scriptedTracker TrackerType.WCAS) 8)
      [Op.CAS 8 8, Op.CAS 8 16]).map (fun os => (casResults os).count true) = some 2 := by
  decide

/-- C9, amended (the first attempt succeeds, the others fail).  For every
strategy, every cell whose pointer equals `e` and every serial order
`CAS(e, obj)`, `CAS(e, obj_2)`, ... of one or more attempts that all start from
the expected value `e`: when the first attempt installs a pointer other than
`e`, or is the only attempt, the first attempt returns true and every other
one returns false, so exactly one attempt returns true. -/
theorem C9_first_attempt_only (rt : RangeTracker σ) (fuel : Nat) (spur : Nat → Nat)
    (c : biptr) (e obj : Nat) (rest : List Nat)
    (hc : c.load = e) (hobj : obj ≠ e ∨ rest = [])
    (hf : ∀ i, i < (obj :: rest).length → spur i < fuel) :
    ∃ os, run rt fuel spur c ((obj :: rest).map (Op.CAS e)) = some os ∧
      casResults os = true :: List.replicate rest.length false ∧
      (casResults os).count true = 1 := by
  obtain ⟨os, hr, hm⟩ := run_pointerRun rt fuel ((obj :: rest).map (Op.CAS e)) spur c
    (by simpa using hf)
  have hres : casResults os = true :: List.replicate rest.length false := by
    rw [casResults_eq_of_map os _ hm, hc]
    rcases hobj with hne | hnil
    · simp only [List.map_cons, pointerRun, Op.pointerStep, if_true, decide_True,
        List.filterMap_cons, pointerRun_CAS_mismatch e obj hne rest, List.filterMap_replicate]
    · subst hnil
      simp [pointerRun, Op.pointerStep]
  refine ⟨os, hr, hres, ?_⟩
  rw [hres]
  simp [List.count_cons, List.count_replicate]

/-- Witness of C9 (amended): three attempts `CAS(8, 16)`, `CAS(8, 8)`,
`CAS(8, 24)` under `WCAS` on the cell constructed from the object at 8. -/
theorem C9_first_attempt_only_witness :
    ∃ os, run (scriptedTracker TrackerType.WCAS) 1 (fun _ => 0)
        (biptr.new (scriptedTracker TrackerType.WCAS) 8)
        ((16 :: [8, 24]).map (Op.CAS 8)) = some os ∧
      casResults os = true :: List.replicate [8, 24].length false ∧
      (casResults os).count true = 1 :=
  C9_first_attempt_only (scriptedTracker TrackerType.WCAS) 1 (fun _ => 0)
    (biptr.new (scriptedTracker TrackerType.WCAS) 8) 8 16 [8, 24] (by decide)
    (Or.inl (by decide)) (fun _ _ => (by decide : 0 < 1))

/-- C10 (store sets the birth tag).  For every strategy, every cell whose
birth tag is at most `get_birth_epoch(obj)`, `store(obj)` with enough fuel
returns a cell with `birth()` equal to `get_birth_epoch(obj)` and `load()`
equal to `obj`. -/
theorem C10_store_sets_birth (rt : RangeTracker σ) (fuel : Nat) (c : biptr) (obj : Nat)
    (hf : 0 < fuel) (_hb : c.birth ≤ biptr.get_birth_epoch rt obj) :
    ∃ c1, biptr.store rt fuel c obj = some c1 ∧
      c1.birth = biptr.get_birth_epoch rt obj ∧ c1.load = obj :=
  ⟨_, biptr.store_eq rt fuel c obj hf, rfl, rfl⟩

/-- Witness of C10, the scenario of the spec: the cell constructed from A (at
address 8, born at epoch 1) has `birth()` 1 and `load()` A; after `store(B)`
with B at address 16, born at epoch 5, it has `birth()` 5 and `load()` B, under
`LF` and under `FAA`. -/
theorem C10_store_sets_birth_witness :
    ((biptr.new (scriptedTracker TrackerType.LF) 8).birth = 1 ∧
      (biptr.new (scriptedTracker TrackerType.LF) 8).load = 8 ∧
      biptr.get_birth_epoch (scriptedTracker TrackerType.LF) 16 = 5) ∧
    (∃ c1, biptr.store (scriptedTracker TrackerType.LF) 1
        (biptr.new (scriptedTracker TrackerType.LF) 8) 16 = some c1 ∧
      c1.birth = biptr.get_birth_epoch (scriptedTracker TrackerType.LF) 16 ∧
      c1.load = 16) ∧
    (∃ c1, biptr.store (scriptedTracker TrackerType.FAA) 1
        (biptr.new (scriptedTracker TrackerType.FAA) 8) 16 = some c1 ∧
      c1.birth = biptr.get_birth_epoch (scriptedTracker TrackerType.FAA) 16 ∧
      c1.load = 16) :=
  ⟨by decide,
    C10_store_sets_birth (scriptedTracker TrackerType.LF) 1
      (biptr.new (scriptedTracker TrackerType.LF) 8) 16 (by decide) (by decide),
    C10_store_sets_birth (scriptedTracker TrackerType.FAA) 1
      (biptr.new (scriptedTracker TrackerType.FAA) 8) 16 (by decide) (by decide)⟩

/-- C11 (construction).  A default-constructed cell has `load()` null and
`birth()` 0.  For every pointer `obj`, the cell constructed from `obj` has
`load()` equal to `obj` and `birth()` equal to `get_birth_epoch(obj)`, which is
0 for the null pointer and otherwise the `read_birth` of the pointee (the
address with the mark bits cleared) whenever there is one; the cell is the
same whatever the strategy tag of the tracker. -/
theorem C11_construction (rt : RangeTracker σ) (obj : Nat) (t : TrackerType) :
    biptr.init.load = 0 ∧ biptr.init.birth = 0 ∧
    (biptr.new rt obj).load = obj ∧
    (biptr.new rt obj).birth = biptr.get_birth_epoch rt obj ∧
    biptr.get_birth_epoch rt 0 = 0 ∧
    biptr.get_birth_epoch rt obj =
      (if obj &&& 0xfffffffffffffffc = 0 then 0
       else u64 (rt.read_birth (obj &&& 0xfffffffffffffffc))) ∧
    biptr.new (rt.withType t) obj = biptr.new rt obj := by
  refine ⟨rfl, rfl, rfl, rfl, ?_, ?_, rfl⟩
  · simp [biptr.get_birth_epoch]
  · unfold biptr.get_birth_epoch
    dsimp only
    by_cases h : obj &&& 0xfffffffffffffffc = 0
    · simp [h]
    · simp [h]

/-- C12 (copy assignment and copy construction).  For every strategy and all
cells `a` (at address `this`) and `b` (at address `other`), the assignment
`a = b` with enough fuel returns; when the two addresses differ, `a` then has
the `load()` and the `birth()` of `b`, and `b` and every other cell are as
before; when they are the same cell nothing changes.  A cell copy-constructed
from `b` has the pointer and the birth tag of `b`. -/
theorem C12_copy_installs_pair (rt : RangeTracker σ) (fuel : Nat) (mem : Nat → biptr)
    (this other : Nat) (hf : 0 < fuel) :
    (this ≠ other →
      ∃ m1, biptr.assign rt fuel mem this other = some m1 ∧
        (m1 this).load = (mem other).load ∧ (m1 this).birth = (mem other).birth ∧
        m1 other = mem other ∧ ∀ a, a ≠ this → m1 a = mem a) ∧
    biptr.assign rt fuel mem this this = some mem ∧
    (biptr.copy (mem other)).load = (mem other).load ∧
    (biptr.copy (mem other)).birth = (mem other).birth := by
  refine ⟨?_, ?_, rfl, rfl⟩
  · intro hne
    refine ⟨Function.update mem this
      (biptr.mk (FatPtr.mk (mem other).ptr (mem other).birth)), ?_, ?_, ?_, ?_, ?_⟩
    · unfold biptr.assign
      rw [if_pos hne]
      by_cases ht : rt.type = TrackerType.WCAS
      · rw [if_neg (by simp [ht])]
        have e : FatPtr.mk (mem this).p (mem this).birth_before = (mem this).fat_ptr := rfl
        simp [e, biptr.WCAS_loop_eq _ _ fuel hf]
      · rw [if_pos ht]
        rfl
    · simp [biptr.load, biptr.ptr, biptr.p]
    · simp [biptr.birth, biptr.birth_before]
    · exact Function.update_noteq (Ne.symm hne) _ _
    · intro a ha
      exact Function.update_noteq ha _ _
  · unfold biptr.assign
    simp

/-- Witness of C12: under `WCAS`, the cell at address 0 (constructed from the
object at 8) assigned from the cell at address 1 (constructed from the object
at 16). -/
theorem C12_copy_installs_pair_witness :
    (0 ≠ 1 →
      ∃ m1, biptr.assign (scriptedTracker TrackerType.WCAS) 1
          (fun a => biptr.new (scriptedTracker TrackerType.WCAS) (8 * (a + 1))) 0 1 = some m1 ∧
        (m1 0).load =
          ((fun a => biptr.new (scriptedTracker TrackerType.WCAS) (8 * (a + 1))) 1).load ∧
        (m1 0).birth =
          ((fun a => biptr.new (scriptedTracker TrackerType.WCAS) (8 * (a + 1))) 1).birth ∧
        m1 1 = (fun a => biptr.new (scriptedTracker TrackerType.WCAS) (8 * (a + 1))) 1 ∧
        ∀ a, a ≠ 0 →
          m1 a = (fun a => biptr.new (scriptedTracker TrackerType.WCAS) (8 * (a + 1))) a) ∧
    biptr.assign (scriptedTracker TrackerType.WCAS) 1
        (fun a => biptr.new (scriptedTracker TrackerType.WCAS) (8 * (a + 1))) 0 0 =
      some (fun a => biptr.new (scriptedTracker TrackerType.WCAS) (8 * (a + 1))) ∧
    (biptr.copy ((fun a => biptr.new (scriptedTracker TrackerType.WCAS) (8 * (a + 1))) 1)).load =
      ((fun a => biptr.new (scriptedTracker TrackerType.WCAS) (8 * (a + 1))) 1).load ∧
    (biptr.copy ((fun a => biptr.new (scriptedTracker TrackerType.WCAS) (8 * (a + 1))) 1)).birth =
      ((fun a => biptr.new (scriptedTracker TrackerType.WCAS) (8 * (a + 1))) 1).birth :=
  C12_copy_installs_pair (scriptedTracker TrackerType.WCAS) 1
    (fun a => biptr.new (scriptedTracker TrackerType.WCAS) (8 * (a + 1))) 0 1 (by decide)

/-- C13 (observational comparisons).  For every cell `c`, tracker state and
pointer `x`: `c == x` is true exactly when `c.load()` equals `x`, `c != x` is
the negation of `c == x`, and the boolean conversion of `c` is true exactly
when `c.load()` is not null; each of the three makes no call to the tracker
and leaves the tracker state and the cell as they were. -/
theorem C13_comparisons_use_load (c : biptr) (s : σ) (x : Nat) :
    ((biptr.operator_eq c s x).value = true ↔ c.load = x) ∧
    (biptr.operator_ne c s x).value = !(biptr.operator_eq c s x).value ∧
    ((biptr.operator_bool c s).value = true ↔ c.load ≠ 0) ∧
    ((biptr.operator_eq c s x).calls = [] ∧ (biptr.operator_ne c s x).calls = [] ∧
      (biptr.operator_bool c s).calls = []) ∧
    ((biptr.operator_eq c s x).tracker = s ∧ (biptr.operator_ne c s x).tracker = s ∧
      (biptr.operator_bool c s).tracker = s) ∧
    ((biptr.operator_eq c s x).cell = c ∧ (biptr.operator_ne c s x).cell = c ∧
      (biptr.operator_bool c s).cell = c) := by
  refine ⟨?_, ?_, ?_, ⟨rfl, rfl, rfl⟩, ⟨rfl, rfl, rfl⟩, ⟨rfl, rfl, rfl⟩⟩
  · simp [biptr.operator_eq, biptr.load]
  · simp [biptr.operator_eq, biptr.operator_ne]
  · simp [biptr.operator_bool, biptr.load]

/-- C14 (birth reconciliation in `CAS`).  For every cell with birth tag `e` and
all pointers `ori` and `obj`, `CAS(ori, obj)` with enough fuel returns under
`LF` and under `FAA`; under `LF` the birth tag it leaves is the maximum of `e`
and `get_birth_epoch(obj)`, under `FAA` it is `e + (get_birth_epoch(obj) - e)`
when `get_birth_epoch(obj)` is above `e` and `e` otherwise, which is the same
value, whatever the flag returned.  A sequence of operations run under `LF`
and under `FAA` from the same cell leaves the same outcomes, birth tags
included. -/
theorem C14_birth_reconciliation (rt : RangeTracker σ) (fuel sL sF : Nat)
    (spurL spurF : Nat → Nat) (c : biptr) (ori obj : Nat) (ops : List Op)
    (hsL : sL < fuel) (hsF : sF < fuel)
    (hL : ∀ i, i < ops.length → spurL i < fuel)
    (hF : ∀ i, i < ops.length → spurF i < fuel) :
    (∃ rL rF,
      biptr.CAS (rt.withType TrackerType.LF) fuel sL c ori obj = some rL ∧
      biptr.CAS (rt.withType TrackerType.FAA) fuel sF c ori obj = some rF ∧
      rL.cell.birth = max c.birth (biptr.get_birth_epoch rt obj) ∧
      rF.cell.birth =
        (if c.birth < biptr.get_birth_epoch rt obj
         then c.birth + (biptr.get_birth_epoch rt obj - c.birth) else c.birth) ∧
      rF.cell.birth = rL.cell.birth ∧
      rL.success = decide (c.load = ori) ∧ rF.success = decide (c.load = ori)) ∧
    (∃ os, run (rt.withType TrackerType.LF) fuel spurL c ops = some os ∧
      run (rt.withType TrackerType.FAA) fuel spurF c ops = some os) := by
  constructor
  · refine ⟨_, _,
      biptr.CAS_eq_of_ne_WCAS (rt.withType TrackerType.LF) fuel sL c ori obj
        (by simp [RangeTracker.withType]) hsL,
      biptr.CAS_eq_of_ne_WCAS (rt.withType TrackerType.FAA) fuel sF c ori obj
        (by simp [RangeTracker.withType]) hsF, rfl, ?_, rfl, rfl, rfl⟩
    show max c.birth (biptr.get_birth_epoch rt obj) = _
    by_cases h : c.birth < biptr.get_birth_epoch rt obj
    · rw [if_pos h, Nat.max_eq_right (Nat.le_of_lt h)]
      omega
    · rw [if_neg h, Nat.max_eq_left (Nat.le_of_not_lt h)]
  · obtain ⟨os, hos, _⟩ := run_pointerRun (rt.withType TrackerType.LF) fuel ops spurL c hL
    exact ⟨os, hos, by rw [← run_LF_eq_FAA rt fuel ops spurL spurF c hL hF]; exact hos⟩

/-- Witness of C14: the cell constructed from the object at 8 (born at epoch
1), a failing `CAS(24, 16)` with the object at 16 born at epoch 5, and the
sequence `CAS(8, 16)`, `CAS(8, 24)`, `CAS(16, 8)`. -/
theorem C14_birth_reconciliation_witness :
    (∃ rL rF,
      biptr.CAS ((scriptedTracker TrackerType.LF).withType TrackerType.LF) 3 2
        (biptr.new (scriptedTracker TrackerType.LF) 8) 24 16 = some rL ∧
      biptr.CAS ((scriptedTracker TrackerType.LF).withType TrackerType.FAA) 3 0
        (biptr.new (scriptedTracker TrackerType.LF) 8) 24 16 = some rF ∧
      rL.cell.birth = max (biptr.new (scriptedTracker TrackerType.LF) 8).birth
        (biptr.get_birth_epoch (scriptedTracker TrackerType.LF) 16) ∧
      rF.cell.birth =
        (if (biptr.new (scriptedTracker TrackerType.LF) 8).birth <
            biptr.get_birth_epoch (scriptedTracker TrackerType.LF) 16
         then (biptr.new (scriptedTracker TrackerType.LF) 8).birth +
            (biptr.get_birth_epoch (scriptedTracker TrackerType.LF) 16 -
              (biptr.new (scriptedTracker TrackerType.LF) 8).birth)
         else (biptr.new (scriptedTracker TrackerType.LF) 8).birth) ∧
      rF.cell.birth = rL.cell.birth ∧
      rL.success = decide ((biptr.new (scriptedTracker TrackerType.LF) 8).load = 24) ∧
      rF.success = decide ((biptr.new (scriptedTracker TrackerType.LF) 8).load = 24)) ∧
    (∃ os, run ((scriptedTracker TrackerType.LF).withType TrackerType.LF) 3 (fun _ => 2)
        (biptr.new (scriptedTracker TrackerType.LF) 8)
        [Op.CAS 8 16, Op.CAS 8 24, Op.CAS 16 8] = some os ∧
      run ((scriptedTracker TrackerType.LF).withType TrackerType.FAA) 3 (fun _ => 0)
        (biptr.new (scriptedTracker TrackerType.LF) 8)
        [Op.CAS 8 16, Op.CAS 8 24, Op.CAS 16 8] = some os) :=
  C14_birth_reconciliation (scriptedTracker TrackerType.LF) 3 2 0 (fun _ => 2) (fun _ => 0)
    (biptr.new (scriptedTracker TrackerType.LF) 8) 24 16
    [Op.CAS 8 16, Op.CAS 8 24, Op.CAS 16 8] (by decide) (by decide)
    (fun _ _ => (by decide : 2 < 3)) (fun _ _ => (by decide : 0 < 3))

/-- C15 (`FAA` under a concurrent bump).  When the `FAA` case of `CAS` has read
the birth tag `e`, the birth epoch of `obj` is `b` above `e`, and the birth
word holds `e1`, at least `e`, when the fetch-and-add runs, the birth word
becomes `(e1 + (b - e)) mod 2^64`; when `e1 + (b - e)` is below `2^64` this is
at least the maximum of `e1` and `b`; and it can be strictly above that
maximum: with `e = 0`, `e1 = 3`, `b = 5` it is 8. -/
theorem C15_FAA_concurrent_bump (e e1 b : Nat) (heb : e < b) (hee : e ≤ e1) :
    biptr.CAS_FAA b e1 e = (e1 + (b - e)) % 2 ^ 64 ∧
    (e1 + (b - e) < 2 ^ 64 → max e1 b ≤ biptr.CAS_FAA b e1 e) ∧
    (biptr.CAS_FAA 5 3 0 = 8 ∧ max 3 5 < biptr.CAS_FAA 5 3 0) := by
  have h1 : biptr.CAS_FAA b e1 e = (e1 + (b - e)) % 2 ^ 64 := by
    unfold biptr.CAS_FAA fetch_add u64
    rw [if_pos heb]
  refine ⟨h1, ?_, by decide⟩
  intro hlt
  rw [h1, Nat.mod_eq_of_lt hlt]
  exact Nat.max_le.mpr ⟨by omega, by omega⟩

/-- Witness of C15: the tag read is 1, the birth epoch of `obj` is 5 and the
birth word holds 4 when the fetch-and-add runs. -/
theorem C15_FAA_concurrent_bump_witness :
    biptr.CAS_FAA 5 4 1 = (4 + (5 - 1)) % 2 ^ 64 ∧
    (4 + (5 - 1) < 2 ^ 64 → max 4 5 ≤ biptr.CAS_FAA 5 4 1) ∧
    (biptr.CAS_FAA 5 3 0 = 8 ∧ max 3 5 < biptr.CAS_FAA 5 3 0) :=
  C15_FAA_concurrent_bump 1 4 5 (by decide) (by decide)

/-- C16 (the retry loops without interference).  The old-value snapshot that
`store` and copy assignment build from the pointer word and the birth word is
the word of the cell, so with any positive fuel their `WCAS` loop writes at
its first attempt, and under `WCAS` `store(obj)` installs `obj` with its birth
epoch and copy assignment installs the pair of the source.  The `LF` loop of
`CAS` returns once the fuel exceeds the number of spurious failures, with at
most one successful compare-exchange: none, and no attempt at all, when the
birth tag is already at least `get_birth_epoch(obj)`, and one otherwise. -/
theorem C16_retry_loops_terminate (rt : RangeTracker σ) (fuel spur : Nat) (c : biptr)
    (obj : Nat) (mem : Nat → biptr) (this other : Nat)
    (hf : spur < fuel) (hne : this ≠ other) :
    (FatPtr.mk c.p c.birth_before = c.fat_ptr ∧
      biptr.WCAS_loop (FatPtr.mk obj (biptr.get_birth_epoch rt obj)) fuel c.fat_ptr
          (FatPtr.mk c.p c.birth_before) =
        some (biptr.LoopResult.mk (FatPtr.mk obj (biptr.get_birth_epoch rt obj)) 1 1) ∧
      (rt.type = TrackerType.WCAS →
        biptr.store rt fuel c obj =
          some (biptr.mk (FatPtr.mk obj (biptr.get_birth_epoch rt obj))))) ∧
    (biptr.WCAS_loop (FatPtr.mk (mem other).ptr (mem other).birth) fuel (mem this).fat_ptr
          (FatPtr.mk (mem this).p (mem this).birth_before) =
        some (biptr.LoopResult.mk (FatPtr.mk (mem other).ptr (mem other).birth) 1 1) ∧
      (rt.type = TrackerType.WCAS →
        biptr.assign rt fuel mem this other =
          some (Function.update mem this
            (biptr.mk (FatPtr.mk (mem other).ptr (mem other).birth))))) ∧
    (∃ r, biptr.CAS_LF_loop (biptr.get_birth_epoch rt obj) fuel spur c.birth_before
          c.birth_before = some r ∧
      r.writes ≤ 1 ∧
      (biptr.get_birth_epoch rt obj ≤ c.birth →
        r = biptr.LoopResult.mk c.birth 0 0) ∧
      (c.birth < biptr.get_birth_epoch rt obj →
        r = biptr.LoopResult.mk (biptr.get_birth_epoch rt obj) (spur + 1) 1)) := by
  have hpos : 0 < fuel := by omega
  refine ⟨⟨rfl, biptr.WCAS_loop_eq _ _ fuel hpos, fun _ => biptr.store_eq rt fuel c obj hpos⟩,
    ⟨biptr.WCAS_loop_eq _ _ fuel hpos, ?_⟩, ?_⟩
  · intro ht
    unfold biptr.assign
    rw [if_pos hne, if_neg (by simp [ht])]
    have e : FatPtr.mk (mem this).p (mem this).birth_before = (mem this).fat_ptr := rfl
    simp [e, biptr.WCAS_loop_eq _ _ fuel hpos]
  · refine ⟨_, biptr.CAS_LF_loop_eq (biptr.get_birth_epoch rt obj) c.birth_before spur fuel hf,
      ?_, ?_, ?_⟩
    · split <;> simp
    · intro h
      have h2 : ¬ c.birth_before < biptr.get_birth_epoch rt obj := Nat.not_lt.mpr h
      rw [if_neg h2]
      rfl
    · intro h
      have h2 : c.birth_before < biptr.get_birth_epoch rt obj := h
      rw [if_pos h2]

/-- Witness of C16: under `WCAS`, the cell constructed from the object at 8,
the object at 16, two spurious failures, and the cell at address 0 assigned
from the one at address 1. -/
theorem C16_retry_loops_terminate_witness :
    (FatPtr.mk (scriptedCells TrackerType.WCAS 0).p
          (scriptedCells TrackerType.WCAS 0).birth_before =
        (scriptedCells TrackerType.WCAS 0).fat_ptr ∧
      biptr.WCAS_loop
          (FatPtr.mk 16 (biptr.get_birth_epoch (scriptedTracker TrackerType.WCAS) 16)) 3
          (scriptedCells TrackerType.WCAS 0).fat_ptr
          (FatPtr.mk (scriptedCells TrackerType.WCAS 0).p
            (scriptedCells TrackerType.WCAS 0).birth_before) =
        some (biptr.LoopResult.mk
          (FatPtr.mk 16 (biptr.get_birth_epoch (scriptedTracker TrackerType.WCAS) 16)) 1 1) ∧
      ((scriptedTracker TrackerType.WCAS).type = TrackerType.WCAS →
        biptr.store (scriptedTracker TrackerType.WCAS) 3 (scriptedCells TrackerType.WCAS 0) 16 =
          some (biptr.mk
            (FatPtr.mk 16 (biptr.get_birth_epoch (scriptedTracker TrackerType.WCAS) 16))))) ∧
    (biptr.WCAS_loop
          (FatPtr.mk (scriptedCells TrackerType.WCAS 1).ptr
            (scriptedCells TrackerType.WCAS 1).birth) 3
          (scriptedCells TrackerType.WCAS 0).fat_ptr
          (FatPtr.mk (scriptedCells TrackerType.WCAS 0).p
            (scriptedCells TrackerType.WCAS 0).birth_before) =
        some (biptr.LoopResult.mk
          (FatPtr.mk (scriptedCells TrackerType.WCAS 1).ptr
            (scriptedCells TrackerType.WCAS 1).birth) 1 1) ∧
      ((scriptedTracker TrackerType.WCAS).type = TrackerType.WCAS →
        biptr.assign (scriptedTracker TrackerType.WCAS) 3 (scriptedCells TrackerType.WCAS) 0 1 =
          some (Function.update (scriptedCells TrackerType.WCAS) 0
            (biptr.mk (FatPtr.mk (scriptedCells TrackerType.WCAS 1).ptr
              (scriptedCells TrackerType.WCAS 1).birth))))) ∧
    (∃ r, biptr.CAS_LF_loop (biptr.get_birth_epoch (scriptedTracker TrackerType.WCAS) 16) 3 2
          (scriptedCells TrackerType.WCAS 0).birth_before
          (scriptedCells TrackerType.WCAS 0).birth_before = some r ∧
      r.writes ≤ 1 ∧
      (biptr.get_birth_epoch (scriptedTracker TrackerType.WCAS) 16 ≤
          (scriptedCells TrackerType.WCAS 0).birth →
        r = biptr.LoopResult.mk (scriptedCells TrackerType.WCAS 0).birth 0 0) ∧
      ((scriptedCells TrackerType.WCAS 0).birth <
          biptr.get_birth_epoch (scriptedTracker TrackerType.WCAS) 16 →
        r = biptr.LoopResult.mk
          (biptr.get_birth_epoch (scriptedTracker TrackerType.WCAS) 16) (2 + 1) 1)) :=
  C16_retry_loops_terminate (scriptedTracker TrackerType.WCAS) 3 2
    (scriptedCells TrackerType.WCAS 0) 16 (scriptedCells TrackerType.WCAS) 0 1
    (by decide) (by decide)

/-- C17 (effect of a failed `CAS` on the cell).  `CAS(ori, obj)` with enough
fuel returns; when it returns false the pointer of the cell is as before, and
under `WCAS` the whole cell, birth tag included, is as before.  Under `LF` and
`FAA`, when the birth tag is below `get_birth_epoch(obj)` and the pointer of
the cell differs from `ori`, the call returns false and strictly raises
`birth()`, to `get_birth_epoch(obj)`. -/
theorem C17_failed_CAS_effect (rt : RangeTracker σ) (fuel spur : Nat) (c : biptr)
    (ori obj : Nat) (hf : spur < fuel) :
    ∃ r, biptr.CAS rt fuel spur c ori obj = some r ∧
      (r.success = false → r.cell.load = c.load) ∧
      (rt.type = TrackerType.WCAS → r.success = false → r.cell = c) ∧
      (rt.type ≠ TrackerType.WCAS → c.birth < biptr.get_birth_epoch rt obj → c.load ≠ ori →
        r.success = false ∧ r.cell.load = c.load ∧
        r.cell.birth = biptr.get_birth_epoch rt obj ∧ c.birth < r.cell.birth) := by
  by_cases ht : rt.type = TrackerType.WCAS
  · refine ⟨_, biptr.CAS_eq_of_WCAS rt fuel spur c ori obj ht, ?_, ?_, fun h => absurd ht h⟩
    · intro h
      have h2 : ¬ c.ptr = ori := by simpa using h
      dsimp only
      rw [if_neg h2]
    · intro _ h
      have h2 : ¬ c.ptr = ori := by simpa using h
      dsimp only
      rw [if_neg h2]
  · refine ⟨_, biptr.CAS_eq_of_ne_WCAS rt fuel spur c ori obj ht hf, ?_,
      fun h => absurd h ht, ?_⟩
    · intro h
      have h2 : ¬ c.ptr = ori := by simpa using h
      show (if c.ptr = ori then obj else c.ptr) = c.ptr
      rw [if_neg h2]
    · intro _ hb hne
      have h2 : ¬ c.ptr = ori := hne
      have hmax : max c.birth (biptr.get_birth_epoch rt obj) = biptr.get_birth_epoch rt obj :=
        Nat.max_eq_right (Nat.le_of_lt hb)
      refine ⟨by simp [h2], ?_, ?_, ?_⟩
      · show (if c.ptr = ori then obj else c.ptr) = c.ptr
        rw [if_neg h2]
      · exact hmax
      · show c.birth < max c.birth (biptr.get_birth_epoch rt obj)
        rw [hmax]
        exact hb

/-- Witness of C17: under `FAA`, on the cell constructed from the object at 8
(born at epoch 1), `CAS(24, 16)` with the object at 16 born at epoch 5. -/
theorem C17_failed_CAS_effect_witness :
    ∃ r, biptr.CAS (scriptedTracker TrackerType.FAA) 1 0
        (biptr.new (scriptedTracker TrackerType.FAA) 8) 24 16 = some r ∧
      (r.success = false → r.cell.load = (biptr.new (scriptedTracker TrackerType.FAA) 8).load) ∧
      ((scriptedTracker TrackerType.FAA).type = TrackerType.WCAS → r.success = false →
        r.cell = biptr.new (scriptedTracker TrackerType.FAA) 8) ∧
      ((scriptedTracker TrackerType.FAA).type ≠ TrackerType.WCAS →
        (biptr.new (scriptedTracker TrackerType.FAA) 8).birth <
          biptr.get_birth_epoch (scriptedTracker TrackerType.FAA) 16 →
        (biptr.new (scriptedTracker TrackerType.FAA) 8).load ≠ 24 →
        r.success = false ∧
        r.cell.load = (biptr.new (scriptedTracker TrackerType.FAA) 8).load ∧
        r.cell.birth = biptr.get_birth_epoch (scriptedTracker TrackerType.FAA) 16 ∧
        (biptr.new (scriptedTracker TrackerType.FAA) 8).birth < r.cell.birth) :=
  C17_failed_CAS_effect (scriptedTracker TrackerType.FAA) 1 0
    (biptr.new (scriptedTracker TrackerType.FAA) 8) 24 16 (by decide)

/-- C18 (`get_birth_epoch` ignores the mark bits).  For every 64-bit pointer
value `obj`, `get_birth_epoch(obj)` equals `get_birth_epoch` of `obj` with its
two low bits cleared, that is of `obj - obj mod 4`; the masked pointer is null
exactly for the values 0, 1, 2 and 3, and then the result is 0; otherwise the
result is `read_birth` of the masked pointer; and the result depends on
`read_birth` only at multiples of 4, so a marked pointer is never looked up
unmasked. -/
theorem C18_mark_bits_ignored (rt : RangeTracker σ) (obj : Nat) (h64 : obj < 2 ^ 64) :
    biptr.get_birth_epoch rt obj = biptr.get_birth_epoch rt (obj &&& 0xfffffffffffffffc) ∧
    obj &&& 0xfffffffffffffffc = obj - obj % 4 ∧
    (obj &&& 0xfffffffffffffffc = 0 ↔ obj < 4) ∧
    (obj &&& 0xfffffffffffffffc = 0 → biptr.get_birth_epoch rt obj = 0) ∧
    (obj &&& 0xfffffffffffffffc ≠ 0 →
      biptr.get_birth_epoch rt obj = u64 (rt.read_birth (obj &&& 0xfffffffffffffffc))) ∧
    (∀ rt2 : RangeTracker σ, (∀ q, q % 4 = 0 → rt2.read_birth q = rt.read_birth q) →
      biptr.get_birth_epoch rt2 obj = biptr.get_birth_epoch rt obj) := by
  have hm : obj &&& 0xfffffffffffffffc = obj - obj % 4 := by
    rw [land_mask_eq, Nat.mod_eq_of_lt h64]
    omega
  refine ⟨?_, hm, ?_, ?_, ?_, ?_⟩
  · unfold biptr.get_birth_epoch
    dsimp only
    rw [land_mask_idem]
  · rw [hm]
    omega
  · intro h
    simp [biptr.get_birth_epoch, h]
  · intro h
    simp [biptr.get_birth_epoch, h]
  · intro rt2 hrt
    unfold biptr.get_birth_epoch
    dsimp only
    rw [hrt _ (land_mask_mod_four obj)]

/-- Witness of C18: the marked pointer 17 (the object at 16 with its lowest bit
set) under the tracker that has the object at 16 born at epoch 5. -/
theorem C18_mark_bits_ignored_witness :
    biptr.get_birth_epoch (scriptedTracker TrackerType.LF) 17 =
      biptr.get_birth_epoch (scriptedTracker TrackerType.LF) (17 &&& 0xfffffffffffffffc) ∧
    17 &&& 0xfffffffffffffffc = 17 - 17 % 4 ∧
    (17 &&& 0xfffffffffffffffc = 0 ↔ 17 < 4) ∧
    (17 &&& 0xfffffffffffffffc = 0 →
      biptr.get_birth_epoch (scriptedTracker TrackerType.LF) 17 = 0) ∧
    (17 &&& 0xfffffffffffffffc ≠ 0 →
      biptr.get_birth_epoch (scriptedTracker TrackerType.LF) 17 =
        u64 ((scriptedTracker TrackerType.LF).read_birth (17 &&& 0xfffffffffffffffc))) ∧
    (∀ rt2 : RangeTracker (List Bool),
      (∀ q, q % 4 = 0 → rt2.read_birth q = (scriptedTracker TrackerType.LF).read_birth q) →
      biptr.get_birth_epoch rt2 17 =
        biptr.get_birth_epoch (scriptedTracker TrackerType.LF) 17) :=
  C18_mark_bits_ignored (scriptedTracker TrackerType.LF) 17 (by decide)

end Claims

end IBR
